import Mathlib

/-!
Verification of the synthetic-document generator's field-generation engine
and round-robin template dispatch.

The embedding follows the Python source:
- `generators/w2/generator.py`, `generators/paystub/generator.py`,
  `generators/other/generator.py` (template loading, round-robin dispatch,
  per-class field routines);
- `main_refactored.py` (batch orchestration).

Monetary amounts are modelled as rationals; the Python floats carry the
spec's explicit rounding tolerance. Randomly sampled primitives become
explicit parameters (with their sampling ranges as hypotheses where the
property needs them), so every field routine is a pure function of its
sampled inputs, exactly as the source computes it.
-/

namespace SynthDocs

/-! ## Template registry (shared by W2Generator, PaystubGenerator, OtherGenerator)

Each generator stores `self.templates` (a sorted list) and
`self.template_index` (initially 0).  `get_html_template_path` returns
`templates[template_index]` and then sets
`template_index = (template_index + 1) % len(templates)`. -/

structure Registry where
  templates : List String
  template_index : Nat

/-- Generator construction sets `self.template_index = 0`. -/
def mkRegistry (ts : List String) : Registry :=
  { templates := ts, template_index := 0 }

/-- `get_html_template_path`: return the current template, advance the
cursor modulo the template count. -/
def get_html_template_path (g : Registry) : String × Registry :=
  (g.templates.getD g.template_index "",
   { templates := g.templates
     template_index := (g.template_index + 1) % g.templates.length })

/-- The registry state after `n` calls to `get_html_template_path`. -/
def stateAfter (g : Registry) : Nat → Registry
  | 0 => g
  | n + 1 => (get_html_template_path (stateAfter g n)).2

/-- The value returned by the `k`-th call (`k ≥ 1`) to
`get_html_template_path`, starting from state `g`. -/
def nthReturned (g : Registry) (k : Nat) : String :=
  (get_html_template_path (stateAfter g (k - 1))).1

theorem stateAfter_templates (g : Registry) (n : Nat) :
    (stateAfter g n).templates = g.templates := by
  induction n with
  | zero => rfl
  | succ n ih => simp [stateAfter, get_html_template_path, ih]

theorem stateAfter_index (ts : List String) (n : Nat) :
    (stateAfter (mkRegistry ts) n).template_index = n % ts.length := by
  induction n with
  | zero => simp [stateAfter, mkRegistry]
  | succ n ih =>
    have ht := stateAfter_templates (mkRegistry ts) n
    simp only [stateAfter, get_html_template_path]
    rw [ht, ih]
    show (n % ts.length + 1) % ts.length = (n + 1) % ts.length
    exact Nat.mod_add_mod n ts.length 1

/-! ## Python-style list indexing (for `OtherGenerator.generate_fake_data`)

`generate_fake_data` reads `self.templates[self.template_index - 1]`;
Python resolves a negative index `i` to position `len + i`. -/

def pyGet (l : List String) (i : Int) : Option String :=
  if 0 ≤ i then l[i.toNat]?
  else if 0 ≤ (l.length : Int) + i then l[((l.length : Int) + i).toNat]?
  else none

/-- The template `OtherGenerator.generate_fake_data` consults:
`self.templates[self.template_index - 1]`. -/
def current_template (g : Registry) : Option String :=
  pyGet g.templates ((g.template_index : Int) - 1)

/-! ## W2Generator.generate_fake_data (monetary core) -/

structure W2Amounts where
  wages : Nat
  federal_withholding : ℚ
  state_withholding : ℚ
  social_security_wages : Nat
  social_security_tax : ℚ
  medicare_tax : ℚ

/-- The wage/tax computations of `W2Generator.generate_fake_data`:
`annual_wages = randint(30000, 150000)`,
`federal_withholding = annual_wages * federal_tax_rate`,
`state_withholding = annual_wages * state_tax_rate`,
`social_security_wages = min(annual_wages, 160200)`,
`social_security_tax = social_security_wages * 0.062`,
`medicare_tax = annual_wages * 0.0145`. -/
def w2_generate_fake_data (annual_wages : Nat)
    (federal_tax_rate state_tax_rate : ℚ) : W2Amounts :=
  let social_security_wages := min annual_wages 160200
  { wages := annual_wages
    federal_withholding := (annual_wages : ℚ) * federal_tax_rate
    state_withholding := (annual_wages : ℚ) * state_tax_rate
    social_security_wages := social_security_wages
    social_security_tax := (social_security_wages : ℚ) * (62 / 1000 : ℚ)
    medicare_tax := (annual_wages : ℚ) * (145 / 10000 : ℚ) }

/-! ## Claim theorems -/

/-- C1: for every generator over a (sorted) list of `T ≥ 1` templates, the
`k`-th call (`k ≥ 1`) to `get_html_template_path` returns the template at
position `(k-1) mod T`: pure round-robin with wrap-around. -/
theorem get_html_template_path_round_robin (ts : List String)
    (hts : ts ≠ []) (k : Nat) (hk : 1 ≤ k) :
    nthReturned (mkRegistry ts) k = ts.getD ((k - 1) % ts.length) "" := by
  have ht := stateAfter_templates (mkRegistry ts) (k - 1)
  have hi := stateAfter_index ts (k - 1)
  simp only [nthReturned, get_html_template_path]
  rw [ht, hi]
  rfl

theorem get_html_template_path_round_robin_witness :
    (["a.html", "b.html"] : List String) ≠ [] ∧ 1 ≤ 3 ∧
      nthReturned (mkRegistry ["a.html", "b.html"]) 3 =
        (["a.html", "b.html"] : List String).getD
          ((3 - 1) % (["a.html", "b.html"] : List String).length) "" :=
  ⟨by decide, by decide,
   get_html_template_path_round_robin ["a.html", "b.html"] (by decide) 3
     (by decide)⟩

/-- C10: for a miscellaneous-class generator with `T ≥ 1` templates,
`generate_fake_data` reads `templates[template_index - 1]`, which is in
range for every reachable cursor value: while the cursor is 0 (no template
dispatched yet) the Python index `-1` silently resolves to the last
template in sorted order, and no error is raised. -/
theorem generate_fake_data_index_safe (ts : List String) (c : Nat)
    (hc : c < ts.length) :
    (current_template { templates := ts, template_index := c }).isSome = true
      ∧ (c = 0 →
          current_template { templates := ts, template_index := c } =
            ts[ts.length - 1]?) := by
  have hlen : 0 < ts.length := Nat.lt_of_le_of_lt (Nat.zero_le c) hc
  rcases Nat.eq_zero_or_pos c with h0 | hpos
  · subst h0
    have key : current_template { templates := ts, template_index := 0 } =
        ts[ts.length - 1]? := by
      simp only [current_template, pyGet]
      rw [if_neg (by omega), if_pos (by omega)]
      congr 1
      omega
    refine ⟨?_, fun _ => key⟩
    rw [key]
    simp [List.getElem?_eq_getElem (show ts.length - 1 < ts.length by omega)]
  · constructor
    · simp only [current_template, pyGet]
      rw [if_pos (by omega)]
      have hx : ((c : Int) - 1).toNat = c - 1 := by omega
      rw [hx]
      simp [List.getElem?_eq_getElem (show c - 1 < ts.length by omega)]
    · intro h0
      omega

theorem generate_fake_data_index_safe_witness :
    (0 : Nat) < (["a.html", "b.html", "c.html"] : List String).length ∧
      ((current_template
          { templates := ["a.html", "b.html", "c.html"],
            template_index := 0 }).isSome = true
        ∧ (0 = 0 →
            current_template
                { templates := ["a.html", "b.html", "c.html"],
                  template_index := 0 } =
              (["a.html", "b.html", "c.html"] :
                  List String)[(["a.html", "b.html", "c.html"] :
                  List String).length - 1]?)) :=
  ⟨by decide,
   generate_fake_data_index_safe ["a.html", "b.html", "c.html"] 0 (by decide)⟩

/-- C4: for every W-2 field mapping with sampled wages
`w ∈ [30000, 150000]`, `social_security_wages = min(w, 160200)` exactly,
`social_security_tax = social_security_wages * 0.062`, and
`medicare_tax = w * 0.0145`. -/
theorem w2_fica_amounts_correct (w : Nat) (fr sr : ℚ)
    (hw1 : 30000 ≤ w) (hw2 : w ≤ 150000) :
    (w2_generate_fake_data w fr sr).social_security_wages = min w 160200
      ∧ (w2_generate_fake_data w fr sr).social_security_tax =
          ((w2_generate_fake_data w fr sr).social_security_wages : ℚ) *
            (62 / 1000 : ℚ)
      ∧ (w2_generate_fake_data w fr sr).medicare_tax =
          (w : ℚ) * (145 / 10000 : ℚ) := by
  refine ⟨rfl, rfl, rfl⟩

theorem w2_fica_amounts_correct_witness :
    30000 ≤ 50000 ∧ 50000 ≤ 150000 ∧
      ((w2_generate_fake_data 50000 (1/5) (1/20)).social_security_wages =
          min 50000 160200
        ∧ (w2_generate_fake_data 50000 (1/5) (1/20)).social_security_tax =
            ((w2_generate_fake_data 50000 (1/5)
                (1/20)).social_security_wages : ℚ) * (62 / 1000 : ℚ)
        ∧ (w2_generate_fake_data 50000 (1/5) (1/20)).medicare_tax =
            (50000 : ℚ) * (145 / 10000 : ℚ)) :=
  ⟨by decide, by decide,
   w2_fica_amounts_correct 50000 (1/5) (1/20) (by decide) (by decide)⟩

/-! ## PaystubGenerator: deductions and year-to-date amounts

`generate_realistic_payroll_amounts(gross_pay)` samples
`federal_tax = gross_pay * uniform(0.15, 0.25)`,
`state_tax = gross_pay * uniform(0.03, 0.08)`, fixed FICA rates,
an optional flat health-insurance amount and an optional retirement
deduction, then `net_pay = gross_pay - total_deductions`.  The sampled
primitives (the two rates and the two optional amounts, which are 0 when
the coin flip skips them) are parameters of the embedding. -/

structure PayrollAmounts where
  gross_pay : ℚ
  federal_tax : ℚ
  state_tax : ℚ
  social_security : ℚ
  medicare : ℚ
  health_insurance : ℚ
  retirement : ℚ
  total_deductions : ℚ
  net_pay : ℚ

def generate_realistic_payroll_amounts (gross_pay : ℚ)
    (federal_rate state_rate health_insurance retirement : ℚ) :
    PayrollAmounts :=
  let federal_tax := gross_pay * federal_rate
  let state_tax := gross_pay * state_rate
  let social_security := gross_pay * (62 / 1000 : ℚ)
  let medicare := gross_pay * (145 / 10000 : ℚ)
  let total_deductions := federal_tax + state_tax + social_security +
    medicare + health_insurance + retirement
  { gross_pay := gross_pay
    federal_tax := federal_tax
    state_tax := state_tax
    social_security := social_security
    medicare := medicare
    health_insurance := health_insurance
    retirement := retirement
    total_deductions := total_deductions
    net_pay := gross_pay - total_deductions }

structure YtdAmounts where
  ytd_gross : ℚ
  ytd_federal_tax : ℚ
  ytd_net : ℚ

/-- `generate_ytd_amounts(payroll_amounts, periods_elapsed)`: one shared
`variance = uniform(0.85, 1.15)` multiplies all three YTD figures. -/
def generate_ytd_amounts (pa : PayrollAmounts) (periods_elapsed : Nat)
    (variance : ℚ) : YtdAmounts :=
  { ytd_gross := pa.gross_pay * (periods_elapsed : ℚ) * variance
    ytd_federal_tax := pa.federal_tax * (periods_elapsed : ℚ) * variance
    ytd_net := pa.net_pay * (periods_elapsed : ℚ) * variance }

/-- C2: for every paystub field mapping, `net_pay` equals `gross_pay` minus
the sum of the six deductions (federal, state, social security, medicare,
health insurance, retirement) within ±0.01, with
`social_security = 0.062 * gross_pay` and `medicare = 0.0145 * gross_pay`. -/
theorem payroll_net_pay_consistent (gross_pay fr sr hi ret : ℚ) :
    |(generate_realistic_payroll_amounts gross_pay fr sr hi ret).net_pay -
        (gross_pay -
          ((generate_realistic_payroll_amounts gross_pay fr sr hi ret).federal_tax +
           (generate_realistic_payroll_amounts gross_pay fr sr hi ret).state_tax +
           (generate_realistic_payroll_amounts gross_pay fr sr hi ret).social_security +
           (generate_realistic_payroll_amounts gross_pay fr sr hi ret).medicare +
           (generate_realistic_payroll_amounts gross_pay fr sr hi ret).health_insurance +
           (generate_realistic_payroll_amounts gross_pay fr sr hi ret).retirement))| ≤
        1 / 100
      ∧ (generate_realistic_payroll_amounts gross_pay fr sr hi ret).social_security =
          gross_pay * (62 / 1000 : ℚ)
      ∧ (generate_realistic_payroll_amounts gross_pay fr sr hi ret).medicare =
          gross_pay * (145 / 10000 : ℚ) := by
  refine ⟨?_, rfl, rfl⟩
  simp only [generate_realistic_payroll_amounts]
  ring_nf
  norm_num

/-- C9: the three year-to-date figures are each the per-period amount times
the same elapsed-period count and the same shared variance multiplier; in
particular the three YTD/per-period ratios coincide whenever the per-period
amounts are nonzero. -/
theorem ytd_shared_variance (pa : PayrollAmounts) (p : Nat) (v : ℚ)
    (hg : pa.gross_pay ≠ 0) (hf : pa.federal_tax ≠ 0) (hn : pa.net_pay ≠ 0) :
    (generate_ytd_amounts pa p v).ytd_gross = pa.gross_pay * (p : ℚ) * v
      ∧ (generate_ytd_amounts pa p v).ytd_federal_tax =
          pa.federal_tax * (p : ℚ) * v
      ∧ (generate_ytd_amounts pa p v).ytd_net = pa.net_pay * (p : ℚ) * v
      ∧ (generate_ytd_amounts pa p v).ytd_gross / pa.gross_pay =
          (generate_ytd_amounts pa p v).ytd_federal_tax / pa.federal_tax
      ∧ (generate_ytd_amounts pa p v).ytd_federal_tax / pa.federal_tax =
          (generate_ytd_amounts pa p v).ytd_net / pa.net_pay := by
  refine ⟨rfl, rfl, rfl, ?_, ?_⟩
  · simp only [generate_ytd_amounts]
    field_simp
    ring
  · simp only [generate_ytd_amounts]
    field_simp
    ring

theorem ytd_shared_variance_witness :
    ((⟨800, 160, 40, 49600/1000, 11600/1000, 100, 0, 3212/10,
        4788/10⟩ : PayrollAmounts).gross_pay ≠ 0 ∧
     (⟨800, 160, 40, 49600/1000, 11600/1000, 100, 0, 3212/10,
        4788/10⟩ : PayrollAmounts).federal_tax ≠ 0 ∧
     (⟨800, 160, 40, 49600/1000, 11600/1000, 100, 0, 3212/10,
        4788/10⟩ : PayrollAmounts).net_pay ≠ 0) ∧
    (generate_ytd_amounts
        (⟨800, 160, 40, 49600/1000, 11600/1000, 100, 0, 3212/10,
          4788/10⟩ : PayrollAmounts) 10 1).ytd_gross /
        (⟨800, 160, 40, 49600/1000, 11600/1000, 100, 0, 3212/10,
          4788/10⟩ : PayrollAmounts).gross_pay =
      (generate_ytd_amounts
        (⟨800, 160, 40, 49600/1000, 11600/1000, 100, 0, 3212/10,
          4788/10⟩ : PayrollAmounts) 10 1).ytd_federal_tax /
        (⟨800, 160, 40, 49600/1000, 11600/1000, 100, 0, 3212/10,
          4788/10⟩ : PayrollAmounts).federal_tax :=
  ⟨⟨by norm_num, by norm_num, by norm_num⟩,
   (ytd_shared_variance
      (⟨800, 160, 40, 49600/1000, 11600/1000, 100, 0, 3212/10,
        4788/10⟩ : PayrollAmounts) 10 1 (by norm_num) (by norm_num)
      (by norm_num)).2.2.2.1⟩

/-! ## Template discovery (`_load_templates`, shared by all generators)

`glob` the template directory, raise if the list is empty, else return the
sorted list.  The globbed file list is the parameter. -/

def load_templates (templates_dir : String) (template_files : List String) :
    Except String (List String) :=
  if template_files = [] then
    Except.error ("No HTML templates found in " ++ templates_dir)
  else
    Except.ok (template_files.mergeSort (fun a b => a ≤ b))

/-! ## Subtype classification (`OtherGenerator._get_document_types`) -/

/-- Exact character-list matching at the head, used to express Python's
substring operator `in`. -/
def leadMatch : List Char → List Char → Bool
  | [], _ => true
  | _ :: _, [] => false
  | a :: as, b :: bs => a == b && leadMatch as bs

def hasSub (needle : List Char) : List Char → Bool
  | [] => leadMatch needle []
  | b :: bs => leadMatch needle (b :: bs) || hasSub needle bs

/-- Python's `pat in hay` on strings. -/
def strContains (hay pat : String) : Bool :=
  hasSub pat.toList hay.toList

/-- The `if/elif` chain of `_get_document_types` applied to one template
filename (the source matches on `os.path.basename(template)`; the
embedding's argument is that basename). -/
def get_document_type (filename : String) : String :=
  if strContains filename "drivers_license" then "drivers_license"
  else if strContains filename "receipt" then "receipt"
  else if strContains filename "letter" then "letter"
  else if strContains filename "book" then "book_page"
  else if strContains filename "invoice" then "invoice"
  else if strContains filename "medical" then "medical"
  else if strContains filename "bank" then "bank_statement"
  else if strContains filename "report" then "report_card"
  else "generic"

/-- The dictionary `_get_document_types` builds over the template list. -/
def get_document_types (templates : List String) : List (String × String) :=
  templates.map (fun t => (t, get_document_type t))

/-- The spec's classification rule, stated as its words say: a fixed
ordered keyword→subtype list, first match wins, default `generic`. -/
def firstMatchSubtype : List (String × String) → String → String
  | [], _ => "generic"
  | (kw, ty) :: rest, filename =>
    if strContains filename kw then ty else firstMatchSubtype rest filename

/-- The spec's fixed ordered rule list. -/
def subtypeRules : List (String × String) :=
  [("drivers_license", "drivers_license"), ("receipt", "receipt"),
   ("letter", "letter"), ("book", "book_page"), ("invoice", "invoice"),
   ("medical", "medical"), ("bank", "bank_statement"),
   ("report", "report_card")]

theorem lookup_get_document_types (templates : List String) (t : String)
    (ht : t ∈ templates) :
    (get_document_types templates).lookup t = some (get_document_type t) := by
  induction templates with
  | nil => cases ht
  | cons hd tl ih =>
    rcases List.mem_cons.mp ht with rfl | hmem
    · simp [get_document_types, List.lookup]
    · by_cases heq : t = hd
      · subst heq
        simp [get_document_types, List.lookup]
      · have hbeq : (t == hd) = false := by simpa using heq
        simp only [get_document_types, List.map, List.lookup, hbeq]
        exact ih hmem

/-! ## License-number synthesis
(`OtherGenerator.generate_drivers_license_data`)

For each character of the state's format string: an alphabetic character
becomes `random.choice('ABCDEFGHIJKLMNOPQRSTUVWXYZ')`, a digit becomes
`str(random.randint(0, 9))`, anything else is kept verbatim.  The random
draws are modelled as functions of the position. -/

def uppercaseLetters : List Char := "ABCDEFGHIJKLMNOPQRSTUVWXYZ".toList

def digitChar (d : Nat) : Char := Char.ofNat (48 + d)

def build_license_number (randLetter : Nat → Char) (randDigit : Nat → Nat) :
    List Char → Nat → List Char
  | [], _ => []
  | c :: rest, k =>
    (if c.isAlpha then randLetter k
     else if c.isDigit then digitChar (randDigit k)
     else c) :: build_license_number randLetter randDigit rest (k + 1)

def generate_license_number (fmt : List Char) (randLetter : Nat → Char)
    (randDigit : Nat → Nat) : List Char :=
  build_license_number randLetter randDigit fmt 0

theorem digitChar_isDigit (d : Nat) (hd : d ≤ 9) :
    (digitChar d).isDigit = true := by
  interval_cases d <;> decide

theorem build_license_number_length (rl : Nat → Char) (rd : Nat → Nat) :
    ∀ (fmt : List Char) (k : Nat),
      (build_license_number rl rd fmt k).length = fmt.length := by
  intro fmt
  induction fmt with
  | nil => intro k; rfl
  | cons c rest ih => intro k; simp [build_license_number, ih]

theorem build_license_number_getD (rl : Nat → Char) (rd : Nat → Nat)
    (hL : ∀ k, rl k ∈ uppercaseLetters) (hD : ∀ k, rd k ≤ 9) :
    ∀ (fmt : List Char) (k i : Nat), i < fmt.length →
      ((fmt.getD i ' ').isAlpha = true →
        (build_license_number rl rd fmt k).getD i ' ' ∈ uppercaseLetters)
      ∧ ((fmt.getD i ' ').isAlpha = false →
          (fmt.getD i ' ').isDigit = true →
          ((build_license_number rl rd fmt k).getD i ' ').isDigit = true)
      ∧ ((fmt.getD i ' ').isAlpha = false →
          (fmt.getD i ' ').isDigit = false →
          (build_license_number rl rd fmt k).getD i ' ' =
            fmt.getD i ' ') := by
  intro fmt
  induction fmt with
  | nil => intro k i hi; cases hi
  | cons c rest ih =>
    intro k i hi
    cases i with
    | zero =>
      simp only [build_license_number, List.getD, List.getElem?_cons_zero,
        Option.getD_some]
      by_cases ha : c.isAlpha
      · simp only [ha, if_true]
        exact ⟨fun _ => hL k, fun h => (by simp [ha] at h),
          fun h => (by simp [ha] at h)⟩
      · by_cases hd : c.isDigit
        · simp only [ha, hd, if_false, if_true]
          refine ⟨fun h => absurd h (by simp [ha]), fun _ _ => ?_,
            fun _ h => (by simp [hd] at h)⟩
          exact digitChar_isDigit (rd k) (hD k)
        · simp only [ha, hd, if_false]
          exact ⟨fun h => absurd h (by simp [ha]),
            fun _ h => absurd h (by simp [hd]), fun _ _ => rfl⟩
    | succ j =>
      have hj : j < rest.length := by simpa using hi
      have := ih (k + 1) j hj
      simpa [build_license_number, List.getD] using this

/-! ## Claim theorems -/

/-- C6: generator construction fails (with the no-templates error) if and
only if the scan of the class's template location yields zero files; with
at least one file it succeeds and stores the discovered templates. -/
theorem load_templates_error_iff_empty (dir : String) (fs : List String) :
    ((∃ e, load_templates dir fs = Except.error e) ↔ fs = [])
      ∧ (fs ≠ [] →
          ∃ l, load_templates dir fs = Except.ok l ∧ l.Perm fs) := by
  constructor
  · constructor
    · rintro ⟨e, he⟩
      by_contra hne
      simp [load_templates, hne] at he
    · rintro rfl
      exact ⟨"No HTML templates found in " ++ dir, by simp [load_templates]⟩
  · intro hne
    refine ⟨fs.mergeSort (fun a b => a ≤ b), ?_, List.mergeSort_perm fs _⟩
    simp [load_templates, hne]

theorem load_templates_error_iff_empty_witness :
    ((["b.html", "a.html"] : List String) ≠ [] ∧
      ∃ l, load_templates "tdir" ["b.html", "a.html"] = Except.ok l ∧
        l.Perm ["b.html", "a.html"]) ∧
    (∃ e, load_templates "tdir" ([] : List String) = Except.error e) :=
  ⟨⟨by decide,
    (load_templates_error_iff_empty "tdir" ["b.html", "a.html"]).2
      (by decide)⟩,
   (load_templates_error_iff_empty "tdir" []).1.mpr rfl⟩

/-- C7: every discovered miscellaneous template is assigned its subtype by
substring match against the fixed ordered keyword list
(drivers_license, receipt, letter, book, invoice, medical, bank, report),
first match winning, with `generic` when nothing matches. -/
theorem document_types_first_match (templates : List String) (t : String)
    (ht : t ∈ templates) :
    (get_document_types templates).lookup t =
        some (firstMatchSubtype subtypeRules t)
      ∧ get_document_type t = firstMatchSubtype subtypeRules t := by
  have hrfl : get_document_type t = firstMatchSubtype subtypeRules t := rfl
  exact ⟨by rw [← hrfl]; exact lookup_get_document_types templates t ht, hrfl⟩

theorem document_types_first_match_witness :
    ("misc_receipt_01.html" : String) ∈
        (["drivers_license_ca.html", "misc_receipt_01.html"] : List String) ∧
      (get_document_types
          ["drivers_license_ca.html", "misc_receipt_01.html"]).lookup
          "misc_receipt_01.html" =
        some (firstMatchSubtype subtypeRules "misc_receipt_01.html") ∧
      get_document_type "misc_receipt_01.html" =
        firstMatchSubtype subtypeRules "misc_receipt_01.html" :=
  ⟨by decide,
   (document_types_first_match
      ["drivers_license_ca.html", "misc_receipt_01.html"]
      "misc_receipt_01.html" (by decide)).1,
   (document_types_first_match
      ["drivers_license_ca.html", "misc_receipt_01.html"]
      "misc_receipt_01.html" (by decide)).2⟩

/-- C8: the generated license number has exactly the format's length; every
alphabetic format position holds an uppercase letter, every digit position
holds a digit, and every other (separator) character is kept verbatim at
its position. -/
theorem license_number_format_spec (fmt : List Char) (rl : Nat → Char)
    (rd : Nat → Nat) (hL : ∀ k, rl k ∈ uppercaseLetters)
    (hD : ∀ k, rd k ≤ 9) :
    (generate_license_number fmt rl rd).length = fmt.length
      ∧ ∀ i, i < fmt.length →
          ((fmt.getD i ' ').isAlpha = true →
            (generate_license_number fmt rl rd).getD i ' ' ∈
              uppercaseLetters)
          ∧ ((fmt.getD i ' ').isAlpha = false →
              (fmt.getD i ' ').isDigit = true →
              ((generate_license_number fmt rl rd).getD i ' ').isDigit =
                true)
          ∧ ((fmt.getD i ' ').isAlpha = false →
              (fmt.getD i ' ').isDigit = false →
              (generate_license_number fmt rl rd).getD i ' ' =
                fmt.getD i ' ') := by
  refine ⟨build_license_number_length rl rd fmt 0, fun i hi => ?_⟩
  exact build_license_number_getD rl rd hL hD fmt 0 i hi

theorem license_number_format_spec_witness :
    (generate_license_number ("A123-456-78-901-0".toList) (fun _ => 'K')
          (fun _ => 7)).length = ("A123-456-78-901-0".toList).length
      ∧ (generate_license_number ("A123-456-78-901-0".toList) (fun _ => 'K')
            (fun _ => 7)).getD 0 ' ' ∈ uppercaseLetters
      ∧ ((generate_license_number ("A123-456-78-901-0".toList)
            (fun _ => 'K') (fun _ => 7)).getD 1 ' ').isDigit = true
      ∧ (generate_license_number ("A123-456-78-901-0".toList) (fun _ => 'K')
            (fun _ => 7)).getD 4 ' ' =
          ("A123-456-78-901-0".toList).getD 4 ' ' := by
  have hK : 'K' ∈ uppercaseLetters := by decide
  have h7 : (7 : Nat) ≤ 9 := by decide
  have h := license_number_format_spec ("A123-456-78-901-0".toList)
    (fun _ => 'K') (fun _ => 7) (fun _ => hK) (fun _ => h7)
  exact ⟨h.1, ((h.2 0 (by decide)).1 (by decide)),
    ((h.2 1 (by decide)).2.1 (by decide) (by decide)),
    ((h.2 4 (by decide)).2.2 (by decide) (by decide))⟩

/-! ## Receipt and invoice field routines (`OtherGenerator`)

`generate_receipt_items` builds items with
`total = round(quantity * price, 2)`;
`generate_receipt_data` computes `subtotal = sum(item['total'])`,
`tax = subtotal * tax_rate`, `total = subtotal + tax`.
`generate_invoice_data` builds a service list (each with
`total = hours * rate`) but stores the literal `'0'` strings for
`subtotal`, `tax` and `total` (the source comments read
"Will be calculated" yet nothing ever computes them). -/

structure ReceiptItem where
  item_name : String
  quantity : Nat
  price : ℚ
  total : ℚ

def round2 (x : ℚ) : ℚ := ((round (x * 100) : ℤ) : ℚ) / 100

def mkReceiptItem (nm : String) (quantity : Nat) (price : ℚ) : ReceiptItem :=
  { item_name := nm, quantity := quantity, price := price,
    total := round2 ((quantity : ℚ) * price) }

structure ReceiptFields where
  items : List ReceiptItem
  subtotal : ℚ
  tax_rate : ℚ
  tax : ℚ
  total : ℚ

def generate_receipt_data (items : List ReceiptItem) (tax_rate : ℚ) :
    ReceiptFields :=
  let subtotal := (items.map (fun it => it.total)).sum
  let tax := subtotal * tax_rate
  { items := items, subtotal := subtotal, tax_rate := tax_rate, tax := tax,
    total := subtotal + tax }

structure InvoiceService where
  hours : Nat
  rate : ℚ
  total : ℚ

def mkInvoiceService (hours : Nat) (rate : ℚ) : InvoiceService :=
  { hours := hours, rate := rate, total := (hours : ℚ) * rate }

structure InvoiceFields where
  services : List InvoiceService
  subtotal : String
  tax : String
  total : String

def generate_invoice_data (services : List InvoiceService) : InvoiceFields :=
  { services := services, subtotal := "0", tax := "0", total := "0" }

/-! ## Batch orchestration (`main_refactored.generate_documents`)

The loop body calls `generator.generate_and_save`; any exception is caught,
printed with the document's 1-based index, and the loop continues.  Success
or failure of each iteration is modelled by the oracle `ok`; `msg i` is the
text of the exception raised at iteration `i`. -/

def genLine (dt : String) (count : Nat) : String :=
  "Generating " ++ toString count ++ " " ++ dt ++ " documents..."

def errLine (dt : String) (idx : Nat) (msg : String) : String :=
  "Error generating " ++ dt ++ " document " ++ toString idx ++ ": " ++ msg

def progLine (dt : String) (idx count : Nat) : String :=
  "Generated " ++ toString idx ++ "/" ++ toString count ++ " " ++ dt ++
    " documents"

def completedLine (dt : String) : String :=
  "Completed generating " ++ dt ++ " documents"

structure BatchResult where
  printed : List String
  attempted : List Nat

def docIterList (dt : String) (count : Nat) (ok : Nat → Bool)
    (msg : Nat → String) : List Nat → List String × List Nat
  | [] => ([], [])
  | i :: rest =>
    let r := docIterList dt count ok msg rest
    if ok i then
      if (i + 1) % 10 == 0 then
        (progLine dt (i + 1) count :: r.1, (i + 1) :: r.2)
      else
        (r.1, (i + 1) :: r.2)
    else
      (errLine dt (i + 1) (msg i) :: r.1, (i + 1) :: r.2)

def generate_documents (dt : String) (count : Nat) (ok : Nat → Bool)
    (msg : Nat → String) : BatchResult :=
  let r := docIterList dt count ok msg (List.range count)
  { printed := genLine dt count :: (r.1 ++ [completedLine dt]),
    attempted := r.2 }

theorem docIterList_attempted (dt : String) (count : Nat) (ok : Nat → Bool)
    (msg : Nat → String) :
    ∀ l : List Nat,
      (docIterList dt count ok msg l).2 = l.map (fun n => n + 1) := by
  intro l
  induction l with
  | nil => rfl
  | cons i rest ih =>
    simp only [docIterList, List.map]
    by_cases h : ok i
    · by_cases h10 : (i + 1) % 10 == 0 <;> simp [h, h10, ih]
    · simp [h, ih]

theorem docIterList_err_mem (dt : String) (count : Nat) (ok : Nat → Bool)
    (msg : Nat → String) (i : Nat) (hfail : ok i = false) :
    ∀ l : List Nat, i ∈ l →
      errLine dt (i + 1) (msg i) ∈ (docIterList dt count ok msg l).1 := by
  intro l
  induction l with
  | nil => intro h; cases h
  | cons j rest ih =>
    intro hmem
    rcases List.mem_cons.mp hmem with rfl | hmem2
    · simp [docIterList, hfail]
    · simp only [docIterList]
      by_cases h : ok j
      · by_cases h10 : (j + 1) % 10 == 0 <;>
          simp [h, h10, List.mem_cons, ih hmem2]
      · simp [h, List.mem_cons, ih hmem2]

/-! ## Claim theorems -/

/-- C3: the receipt routine does satisfy
`total = subtotal − discount + tax` (with its discount identically 0) and
`subtotal = Σ item.total`; but the invoice routine leaves `subtotal`,
`tax` and `total` as the literal string `'0'` although its service list
has nonzero line totals (here a single service of 5 hours at rate 50,
line total 250), contradicting the no-orphan-totals invariant.  The
source's own comments ("Will be calculated") mark this as a slip. -/
theorem invoice_totals_left_zero :
    (∀ (items : List ReceiptItem) (rate : ℚ),
        (generate_receipt_data items rate).total =
            (generate_receipt_data items rate).subtotal - 0 +
              (generate_receipt_data items rate).tax
          ∧ (generate_receipt_data items rate).subtotal =
              ((items.map (fun it => it.total)).sum))
      ∧ (generate_invoice_data [mkInvoiceService 5 50]).subtotal = "0"
      ∧ (generate_invoice_data [mkInvoiceService 5 50]).tax = "0"
      ∧ (generate_invoice_data [mkInvoiceService 5 50]).total = "0"
      ∧ (([mkInvoiceService 5 50].map (fun s => s.total)).sum = 250)
      ∧ (250 : ℚ) ≠ 0 := by
  refine ⟨fun items rate => ⟨by simp [generate_receipt_data], rfl⟩,
    rfl, rfl, rfl, by norm_num [mkInvoiceService], by norm_num⟩

/-- C5 (counterexample): a batch of count 5 where document #3 raises during
render produces exactly a start line, one error line naming index 3, and a
bare completion line; no printed line contains the digit 4 or the words
needed to report "4 succeeded, 1 failed", so the code surfaces no
success/failure count. -/
theorem generate_documents_no_count_report :
    (generate_documents "w2" 5 (fun i => !(i == 2))
          (fun _ => "render error")).printed =
        [genLine "w2" 5, errLine "w2" 3 "render error", completedLine "w2"]
      ∧ ∀ line ∈ (generate_documents "w2" 5 (fun i => !(i == 2))
          (fun _ => "render error")).printed,
          strContains line "4" = false ∧ strContains line "succe" = false ∧
            strContains line "fail" = false := by
  decide

/-- C5 (amended): a per-document error is caught and logged with the
document's 1-based index, and the remaining iterations still run (all
`count` documents are attempted, and the batch ends with its completion
message); the batch surfaces no success/failure count to the caller. -/
theorem generate_documents_best_effort (dt : String) (count : Nat)
    (ok : Nat → Bool) (msg : Nat → String) (i : Nat) (hi : i < count)
    (hfail : ok i = false) :
    (generate_documents dt count ok msg).attempted =
        (List.range count).map (fun n => n + 1)
      ∧ errLine dt (i + 1) (msg i) ∈
          (generate_documents dt count ok msg).printed
      ∧ (generate_documents dt count ok msg).printed.getLast? =
          some (completedLine dt) := by
  refine ⟨docIterList_attempted dt count ok msg (List.range count), ?_, ?_⟩
  · have hmem : i ∈ List.range count := List.mem_range.mpr hi
    have := docIterList_err_mem dt count ok msg i hfail (List.range count)
      hmem
    simp only [generate_documents]
    exact List.mem_cons_of_mem _ (List.mem_append_left _ this)
  · simp only [generate_documents]
    rw [show genLine dt count ::
          ((docIterList dt count ok msg (List.range count)).1 ++
            [completedLine dt]) =
        (genLine dt count ::
          (docIterList dt count ok msg (List.range count)).1) ++
          [completedLine dt] from by simp]
    exact List.getLast?_concat _

theorem generate_documents_best_effort_witness :
    2 < 5 ∧ (fun i => !(i == 2)) 2 = false ∧
      ((generate_documents "paystub" 5 (fun i => !(i == 2))
            (fun _ => "boom")).attempted =
          (List.range 5).map (fun n => n + 1)
        ∧ errLine "paystub" (2 + 1) "boom" ∈
            (generate_documents "paystub" 5 (fun i => !(i == 2))
              (fun _ => "boom")).printed
        ∧ (generate_documents "paystub" 5 (fun i => !(i == 2))
              (fun _ => "boom")).printed.getLast? =
            some (completedLine "paystub")) :=
  ⟨by decide, by decide,
   generate_documents_best_effort "paystub" 5 (fun i => !(i == 2))
     (fun _ => "boom") 2 (by decide) (by decide)⟩

end SynthDocs
